import Mathlib

set_option maxHeartbeats 1000000

/-!
Shallow embedding of the lms-zabbix-sync repository (Python) in Lean 4.

The embedding follows the source files:
  src/src/buffer.py             (class DeviceBuffer)
  src/src/message_processor.py  (class LMSMessageProcessor)
  src/src/sync.py               (class LMSZabbixSync)

Python dictionaries are modelled as association lists with first-match
lookup, in-place replacement on insert of an existing key, and deletion of
the (unique) matching entry.  Python dict keys of mixed type are modelled
by the inductive type Key: the buffer methods add_ip_for_device,
get_complete_device and remove_device apply str() to their device_id
argument before using it as a key, while add_device uses the key exactly as
given; both behaviours are reproduced here.  Exceptions raised inside a
handler are modelled with Except, threading the buffer state reached at the
raise point (Python exceptions do not roll back prior mutations).
-/

namespace LmsZabbixSync

/-- Python values that appear as dict keys or ids in this program:
integers (JSON numbers), strings, and None (a missing payload field). -/
inductive Key where
  | kInt (n : Int)
  | kStr (s : String)
  | kNone
deriving DecidableEq, Repr

/-- Python str() applied to a key value: str(42) is "42", str on a string is
the string itself, str(None) is "None". -/
def Key.pyStr : Key → String
  | .kInt n => toString n
  | .kStr s => s
  | .kNone => "None"

/-- The coercion device_id = str(device_id) performed at the top of
add_ip_for_device, get_complete_device and remove_device in buffer.py. -/
def Key.coerce (k : Key) : Key := .kStr k.pyStr

/-- Whether the key is already a Python string. -/
def Key.isStr : Key → Bool
  | .kStr _ => true
  | _ => false

/-- Dict lookup: d.get(k) / k in d, first matching entry. -/
def dictGet {β : Type} : List (Key × β) → Key → Option β
  | [], _ => none
  | (k', v) :: t, k => if k' = k then some v else dictGet t k

/-- Dict insert-or-replace: d[k] = v.  Replacement keeps the entry position,
as Python dicts preserve insertion order on overwrite. -/
def dictSet {β : Type} : List (Key × β) → Key → β → List (Key × β)
  | [], k, v => [(k, v)]
  | (k', v') :: t, k, v => if k' = k then (k, v) :: t else (k', v') :: dictSet t k v

/-- Dict deletion: del d[k] (no-op when the key is absent, matching the
guarded deletes in buffer.py which all test membership first). -/
def dictDel {β : Type} : List (Key × β) → Key → List (Key × β)
  | [], _ => []
  | (k', v') :: t, k => if k' = k then t else (k', v') :: dictDel t k

/-- The device_data dicts stored in pending_devices and device_info_cache.
The code builds them with keys name / description / status / action
(message_processor.py lines 59-64) and optionally merges an "ip" key
(buffer.py lines 22, 38); absent optional keys are modelled with none. -/
structure DeviceData where
  name : String
  description : String
  status : Int
  ip : Option String := none
  action : Option String := none
deriving DecidableEq, Repr

/-- Python truthiness of device.get("ip") and similar optional-string
reads: missing key or empty string are falsy. -/
def truthyOS : Option String → Bool
  | some s => s != ""
  | none => false

/-- The three dict fields of class DeviceBuffer (buffer.py lines 12-15). -/
structure Buffer where
  pending_devices : List (Key × DeviceData)
  device_ips : List (Key × String)
  device_info_cache : List (Key × DeviceData)
deriving DecidableEq, Repr

def emptyBuffer : Buffer := ⟨[], [], []⟩

/-- DeviceBuffer.add_device (buffer.py lines 18-30).  The key is used
exactly as given (no str() coercion).  Stores/replaces the pending entry,
merges a buffered IP for the same (raw) key into it, and returns whether
the resulting entry has a truthy name and a truthy ip. -/
def add_device (b : Buffer) (device_id : Key) (device_data : DeviceData) :
    Bool × Buffer :=
  let data' :=
    match dictGet b.device_ips device_id with
    | some ip => { device_data with ip := some ip }
    | none => device_data
  let b' := { b with pending_devices := dictSet b.pending_devices device_id data' }
  ((data'.name != "") && truthyOS data'.ip, b')

/-- DeviceBuffer.add_ip_for_device (buffer.py lines 32-45).  The key is
coerced with str().  Records/replaces the pending IP; if a pending device
exists under the coerced key, merges the IP in and returns whether that
entry is now complete; otherwise returns false. -/
def add_ip_for_device (b : Buffer) (device_id : Key) (ip : String) :
    Bool × Buffer :=
  let id := device_id.coerce
  let ips' := dictSet b.device_ips id ip
  match dictGet b.pending_devices id with
  | some dev =>
      let dev' := { dev with ip := some ip }
      let b' := { b with device_ips := ips',
                         pending_devices := dictSet b.pending_devices id dev' }
      ((dev'.name != "") && (ip != ""), b')
  | none => (false, { b with device_ips := ips' })

/-- DeviceBuffer.get_complete_device (buffer.py lines 47-57).  The key is
coerced with str().  If a pending entry exists under the coerced key and is
complete, removes it (and its pending IP) and returns it; otherwise returns
none and leaves the buffer unchanged. -/
def get_complete_device (b : Buffer) (device_id : Key) :
    Option DeviceData × Buffer :=
  let id := device_id.coerce
  match dictGet b.pending_devices id with
  | some dev =>
      if (dev.name != "") && truthyOS dev.ip then
        (some dev,
         { b with pending_devices := dictDel b.pending_devices id,
                  device_ips := dictDel b.device_ips id })
      else (none, b)
  | none => (none, b)

/-- DeviceBuffer.remove_device (buffer.py lines 59-65).  The key is coerced
with str(); both pending entries for it are discarded. -/
def remove_device (b : Buffer) (device_id : Key) : Buffer :=
  let id := device_id.coerce
  { b with pending_devices := dictDel b.pending_devices id,
           device_ips := dictDel b.device_ips id }

/-- Python exceptions that arise in the modelled paths. -/
inductive PyErr where
  | attributeError
  | overflowError
deriving DecidableEq, Repr

/-- Call-site embedding of self.device_buffer.cache_device_info(...)
(message_processor.py lines 70, 106, 138, 167).  Class DeviceBuffer in
buffer.py defines no method or attribute named cache_device_info, so the
attribute lookup raises AttributeError before anything runs. -/
def cache_device_info (_b : Buffer) (_device_id : Key) (_dev : DeviceData) :
    Except PyErr Buffer := .error .attributeError

/-- Call-site embedding of restore_device_to_pending (buffer.py lines
73-76) as invoked from message_processor.py line 185.  The method body
starts with host.get("host"), but the only call site passes the integer
netdev id; Python ints have no attribute get, so the call raises
AttributeError before any buffer mutation. -/
def restore_device_to_pending (_b : Buffer) (_netdev_id : Key) :
    Except PyErr Buffer := .error .attributeError

/-- Python str(key) as performed by json.dump on dict keys when writing the
buffer state file: ints print in decimal, None becomes the JSON literal
null. -/
def Key.jsonStr : Key → String
  | .kInt n => toString n
  | .kStr s => s
  | .kNone => "null"

/-- The JSON state object written by save_state: it holds the single key
"pending_devices" (buffer.py lines 80-82); device_ips and
device_info_cache are not written. -/
structure Blob where
  pending_devices : List (Key × DeviceData)
deriving DecidableEq, Repr

/-- DeviceBuffer.save_state (buffer.py lines 78-87): json.dump of
{"pending_devices": self.pending_devices}.  json.dump stringifies every
dict key, and may therefore emit duplicate keys in the output text when an
int key and its string form coexist. -/
def save_state (b : Buffer) : Blob :=
  ⟨b.pending_devices.map (fun kv => (Key.kStr kv.1.jsonStr, kv.2))⟩

/-- json.load of an object: entries are inserted in textual order, a later
duplicate key overwriting an earlier one. -/
def jsonLoadObj (l : List (Key × DeviceData)) : List (Key × DeviceData) :=
  l.foldl (fun acc kv => dictSet acc kv.1 kv.2) []

/-- DeviceBuffer.load_state (buffer.py lines 89-101) applied to a state
file produced by save_state: pending_devices is read back, while
state.get("device_ips", {}) and state.get("device_info_cache", {}) yield
empty dicts because save_state never writes those keys. -/
def load_state (blob : Blob) : Buffer :=
  ⟨jsonLoadObj blob.pending_devices, [], []⟩

/-- LMSMessageProcessor.ip_to_string (message_processor.py lines 16-21):
0 maps to the empty string; otherwise int.to_bytes(4, byteorder = 'big')
(which raises OverflowError outside [0, 2^32)) followed by a dotted join
of the four byte values. -/
def ip_to_string (ip_int : Int) : Except PyErr String :=
  if ip_int = 0 then .ok ""
  else if ip_int < 0 ∨ 4294967296 ≤ ip_int then .error .overflowError
  else
    let n := ip_int.toNat
    .ok (String.intercalate "."
      ([n / 16777216 % 256, n / 65536 % 256, n / 256 % 256, n % 256].map toString))

/-- Python str.lstrip("#"): drop every leading hash character. -/
def lstripHash (s : String) : String :=
  String.mk (s.toList.dropWhile (fun c => c == '#'))

/-- payload.get("id") used as a buffer key: a JSON number becomes an int
key, a missing field becomes None. -/
def keyOfId : Option Int → Key
  | some n => .kInt n
  | none => .kNone

/-- The status normalisation 0 if payload.get("status", 0) == 0 else 1
(message_processor.py lines 62, 96, 104). -/
def statusNorm (s : Option Int) : Int :=
  if s.getD 0 = 0 then 0 else 1

/-- The JSON payload dict of a change event, restricted to the keys the
two handlers read: id, name, description, status (netdevices table) and
id, ipaddr, netdev (nodes table). -/
structure Payload where
  id : Option Int := none
  name : Option String := none
  description : Option String := none
  status : Option Int := none
  ipaddr : Option Int := none
  netdev : Option Int := none
deriving DecidableEq, Repr

/-- A Zabbix host dict as returned by the inventory lookups; the handlers
only ever read host["host"]. -/
structure Host where
  host : String
deriving DecidableEq, Repr

/-- The dicts handed to the Zabbix client and the sync-instruction dicts
returned by the handlers, restricted to the keys the code writes/reads
(action, host, new_host, name, ip, description, status). -/
structure HostData where
  action : Option String := none
  host : Option String := none
  new_host : Option String := none
  name : Option String := none
  ip : Option String := none
  description : Option String := none
  status : Option Int := none
deriving DecidableEq, Repr

/-- The ZabbixAPIClient collaborator, modelled as a pure response oracle;
per zabbix_client.py every method catches its own exceptions and surfaces
failure as None/False. -/
structure Api where
  get_host_by_name : String → Option Host
  get_host_by_ip : String → Option Host
  update_host : HostData → Bool
  delete_host : String → Bool
  create_host : HostData → Option String

/-- Trace of outward inventory calls made while handling one message. -/
inductive ApiCall where
  | getByName (name : String)
  | getByIp (ip : String)
  | update (data : HostData)
  | delete (host : String)
  | create (data : HostData)
deriving DecidableEq, Repr

/-- Result of one handler invocation: the Python return value or the
exception it raised, the buffer state reached (mutations before a raise
persist), the inventory calls made, and the save_state snapshots written
(message_processor.py contains no save_state call, so every constructor
below leaves this list empty). -/
structure HandlerOut where
  result : Except PyErr (Option HostData)
  buf : Buffer
  calls : List ApiCall
  saves : List Blob := []
deriving Repr

/-- LMSMessageProcessor._process_netdevice (message_processor.py lines
51-120).  On INSERT, when the completed record is retrieved the next
statement is the call to the undefined cache_device_info, so the branch
raises AttributeError and the subsequent return of the create dict is dead
code.  On UPDATE with a successful sink update, the expression
device_info_cache.get(device_id, {}) aliases the cached dict when the key
is present, so the in-place .update mutates the cache before
cache_device_info raises. -/
def process_netdevice (api : Api) (b : Buffer) (action : Option String)
    (p : Payload) (pPrev : Option Payload) : HandlerOut :=
  let device_id := keyOfId p.id
  let clean_name := lstripHash (p.name.getD "")
  if action = some "INSERT" then
    let device_data : DeviceData :=
      { name := clean_name, description := p.description.getD "",
        status := statusNorm p.status, action := some "create" }
    let r := add_device b device_id device_data
    if r.1 then
      let g := get_complete_device r.2 device_id
      match g.1 with
      | some complete_device =>
          match cache_device_info g.2 device_id complete_device with
          | .error e => { result := .error e, buf := g.2, calls := [] }
          | .ok b2 =>
              { result := .ok (some
                  { action := some "create", host := some complete_device.name,
                    name := some complete_device.name, ip := complete_device.ip,
                    description := some complete_device.description,
                    status := some complete_device.status }),
                buf := b2, calls := [] }
      | none => { result := .ok none, buf := g.2, calls := [] }
    else { result := .ok none, buf := r.2, calls := [] }
  else if action = some "UPDATE" then
    match pPrev with
    | none => { result := .ok none, buf := b, calls := [] }
    | some pv =>
      let previous_clean_name := lstripHash (pv.name.getD "")
      match api.get_host_by_name previous_clean_name with
      | some _host =>
          let update_data : HostData :=
            { host := some previous_clean_name, new_host := some clean_name,
              name := some clean_name,
              description := some (p.description.getD ""),
              status := some (statusNorm p.status) }
          if api.update_host update_data then
            let b2 :=
              match dictGet b.device_info_cache device_id with
              | some cached =>
                  let cached2 : DeviceData :=
                    { cached with
                      name := clean_name,
                      description := p.description.getD "",
                      status := statusNorm p.status }
                  { b with
                    device_info_cache := dictSet b.device_info_cache device_id cached2 }
              | none => b
            { result := .error .attributeError, buf := b2,
              calls := [.getByName previous_clean_name, .update update_data] }
          else
            { result := .ok none, buf := b,
              calls := [.getByName previous_clean_name, .update update_data] }
      | none =>
          { result := .ok none, buf := b,
            calls := [.getByName previous_clean_name] }
  else if action = some "DELETE" then
    { result := .ok none, buf := remove_device b device_id, calls := [] }
  else { result := .ok none, buf := b, calls := [] }

/-- LMSMessageProcessor._process_node (message_processor.py lines
122-190).  ip_to_string runs before the netdev guard, so an out-of-range
ipaddr raises first.  On INSERT the completed-record branch raises on
cache_device_info exactly as in the netdevice path.  On UPDATE a
successful sink update aliases and mutates the cached dict (ip only) and
then raises on cache_device_info.  On DELETE the delete_host result is
ignored and restore_device_to_pending is invoked with the integer netdev
id, raising AttributeError before any buffer mutation. -/
def process_node (api : Api) (b : Buffer) (action : Option String)
    (p : Payload) (pPrev : Option Payload) : HandlerOut :=
  match ip_to_string (p.ipaddr.getD 0) with
  | .error e => { result := .error e, buf := b, calls := [] }
  | .ok ip_string =>
    match p.netdev with
    | none => { result := .ok none, buf := b, calls := [] }
    | some nd =>
      if nd = 0 then { result := .ok none, buf := b, calls := [] }
      else
        let netdev_id := Key.kInt nd
        if action = some "INSERT" then
          let r := add_ip_for_device b netdev_id ip_string
          if r.1 then
            let g := get_complete_device r.2 netdev_id
            match g.1 with
            | some complete_device =>
                match cache_device_info g.2 netdev_id complete_device with
                | .error e => { result := .error e, buf := g.2, calls := [] }
                | .ok b2 =>
                    { result := .ok (some
                        { action := some "create",
                          host := some complete_device.name,
                          name := some complete_device.name,
                          ip := complete_device.ip,
                          description := some complete_device.description,
                          status := some complete_device.status }),
                      buf := b2, calls := [] }
            | none => { result := .ok none, buf := g.2, calls := [] }
          else { result := .ok none, buf := r.2, calls := [] }
        else if action = some "UPDATE" then
          match pPrev with
          | none => { result := .ok none, buf := b, calls := [] }
          | some pv =>
            match ip_to_string (pv.ipaddr.getD 0) with
            | .error e => { result := .error e, buf := b, calls := [] }
            | .ok previous_ip_string =>
              match api.get_host_by_ip previous_ip_string with
              | some host =>
                  let update_data : HostData :=
                    { host := some host.host, ip := some ip_string }
                  if api.update_host update_data then
                    let b2 :=
                      match dictGet b.device_info_cache netdev_id with
                      | some cached =>
                          let cached2 : DeviceData := { cached with ip := some ip_string }
                          { b with
                            device_info_cache := dictSet b.device_info_cache netdev_id cached2 }
                      | none => b
                    { result := .error .attributeError, buf := b2,
                      calls := [.getByIp previous_ip_string,
                                .update update_data] }
                  else
                    { result := .ok none, buf := b,
                      calls := [.getByIp previous_ip_string,
                                .update update_data] }
              | none =>
                  { result := .ok none, buf := b,
                    calls := [.getByIp previous_ip_string] }
        else if action = some "DELETE" then
          if ip_string != "" then
            match api.get_host_by_ip ip_string with
            | some host =>
                let _deleted := api.delete_host host.host
                match restore_device_to_pending b netdev_id with
                | .error e =>
                    { result := .error e, buf := b,
                      calls := [.getByIp ip_string, .delete host.host] }
                | .ok b2 =>
                    { result := .ok none, buf := b2,
                      calls := [.getByIp ip_string, .delete host.host] }
            | none =>
                { result := .ok none, buf := b, calls := [.getByIp ip_string] }
          else { result := .ok none, buf := b, calls := [] }
        else { result := .ok none, buf := b, calls := [] }

/-- The decoded body handed to parse_lms_message: either a string that
json.loads rejects, or a decoded top-level message.  The Action and Table
fields are read with .get and may be missing; an absent or empty
PayloadPrevious decodes to an empty dict, which the handlers treat as
falsy, modelled as none. -/
structure LMSMsg where
  action : Option String := none
  table : Option String := none
  payload : Payload := {}
  payloadPrevious : Option Payload := none
deriving DecidableEq, Repr

inductive ParseIn where
  | badJson
  | msg (m : LMSMsg)
deriving DecidableEq, Repr

/-- Return shape of parse_lms_message: the optional sync-instruction dict
plus the threaded buffer, call trace and persistence trace. -/
structure ParseOut where
  instr : Option HostData
  buf : Buffer
  calls : List ApiCall
  saves : List Blob
deriving Repr

/-- The try/except wrapper of parse_lms_message: any exception escaping a
handler is logged and turned into a None return, keeping the buffer state
reached at the raise point. -/
def handlerWrap (h : HandlerOut) : ParseOut :=
  match h.result with
  | .ok r => ⟨r, h.buf, h.calls, h.saves⟩
  | .error _ => ⟨none, h.buf, h.calls, h.saves⟩

/-- LMSMessageProcessor.parse_lms_message (message_processor.py lines
23-49): decode, dispatch on the Table field, drop unknown tables, and
catch every handler exception. -/
def parse_lms_message (api : Api) (b : Buffer) (pin : ParseIn) : ParseOut :=
  match pin with
  | .badJson => ⟨none, b, [], []⟩
  | .msg m =>
    if m.table = some "netdevices" then
      handlerWrap (process_netdevice api b m.action m.payload m.payloadPrevious)
    else if m.table = some "nodes" then
      handlerWrap (process_node api b m.action m.payload m.payloadPrevious)
    else ⟨none, b, [], []⟩

/-- Return shape of process_message: the boolean handed back to the
transport callback plus the threaded state. -/
structure ProcOut where
  ok : Bool
  buf : Buffer
  calls : List ApiCall
  saves : List Blob
deriving Repr

/-- LMSZabbixSync.process_message (sync.py lines 71-104): a None from the
parser means buffered/dropped and returns True; otherwise the instruction
is dispatched to the inventory client and its success is returned; a
falsy action or host field returns False. -/
def process_message (api : Api) (b : Buffer) (pin : ParseIn) : ProcOut :=
  let p := parse_lms_message api b pin
  match p.instr with
  | none => ⟨true, p.buf, p.calls, p.saves⟩
  | some zd =>
    if truthyOS zd.action && truthyOS zd.host then
      if zd.action = some "create" then
        ⟨(api.create_host zd).isSome, p.buf, p.calls ++ [.create zd], p.saves⟩
      else if zd.action = some "update" then
        ⟨api.update_host zd, p.buf, p.calls ++ [.update zd], p.saves⟩
      else if zd.action = some "delete" then
        ⟨api.delete_host (zd.host.getD ""), p.buf,
         p.calls ++ [.delete (zd.host.getD "")], p.saves⟩
      else ⟨false, p.buf, p.calls, p.saves⟩
    else ⟨false, p.buf, p.calls, p.saves⟩

/-- Transport acknowledgement outcome. -/
inductive Ack where
  | ack
  | nack
deriving DecidableEq, Repr

/-- A delivered message body: either bytes that fail UTF-8 decoding
(body.decode raises, caught by the callback which then nacks), or decoded
content for the parser. -/
inductive Body where
  | badUtf8
  | content (pin : ParseIn)
deriving DecidableEq, Repr

structure CbOut where
  ack : Ack
  buf : Buffer
  calls : List ApiCall
  saves : List Blob
deriving Repr

/-- LMSZabbixSync.message_callback (sync.py lines 106-126): ack when
process_message returns True, nack-and-requeue when it returns False or
when decoding the body raises. -/
def message_callback (api : Api) (b : Buffer) (body : Body) : CbOut :=
  match body with
  | .badUtf8 => ⟨.nack, b, [], []⟩
  | .content pin =>
    let r := process_message api b pin
    ⟨if r.ok then .ack else .nack, r.buf, r.calls, r.saves⟩

/-! Definitions supporting the claims about sequences of buffer calls on a
single identity. -/

/-- One buffer call for a fixed identity: an attribute half as built by the
netdevice INSERT path (name, description, status; the device_data dict
carries no ip key), or an IP half. -/
inductive BufOp where
  | addDev (name description : String) (status : Int)
  | addIP (ip : String)
deriving DecidableEq, Repr

def applyOp (id : Key) (b : Buffer) (op : BufOp) : Buffer :=
  match op with
  | .addDev n d st =>
      (add_device b id { name := n, description := d, status := st,
                         action := some "create" }).2
  | .addIP ip => (add_ip_for_device b id ip).2

/-- Run a sequence of buffer calls for one identity on a fresh buffer. -/
def runOps (id : Key) (ops : List BufOp) : Buffer :=
  ops.foldl (applyOp id) emptyBuffer

/-- The most recently supplied name across a call sequence (none when no
attribute half ever arrived). -/
def suppliedName (ops : List BufOp) : Option String :=
  ops.foldl (fun acc op => match op with | .addDev n _ _ => some n | _ => acc) none

/-- The most recently supplied IP across a call sequence (none when no IP
half ever arrived). -/
def suppliedIP (ops : List BufOp) : Option String :=
  ops.foldl (fun acc op => match op with | .addIP ip => some ip | _ => acc) none

/-! Basic facts about the dict model. -/

theorem dictGet_of_not_mem {β : Type} (l : List (Key × β)) (k : Key)
    (h : k ∉ l.map Prod.fst) : dictGet l k = none := by
  induction l with
  | nil => rfl
  | cons p t ih =>
    simp only [List.map_cons, List.mem_cons] at h
    push_neg at h
    simp only [dictGet]
    rw [if_neg (fun he => h.1 he.symm)]
    exact ih h.2

theorem dictGet_dictDel_self {β : Type} (l : List (Key × β)) (k : Key)
    (h : (l.map Prod.fst).Nodup) : dictGet (dictDel l k) k = none := by
  induction l with
  | nil => rfl
  | cons p t ih =>
    simp only [List.map_cons, List.nodup_cons] at h
    simp only [dictDel]
    by_cases hpk : p.1 = k
    · rw [if_pos hpk]
      exact dictGet_of_not_mem t k (hpk ▸ h.1)
    · rw [if_neg hpk]
      simp only [dictGet]
      rw [if_neg hpk]
      exact ih h.2

/-- A non-string key differs from its own str() coercion. -/
theorem coerce_ne_of_not_str (id : Key) (hid : id.isStr = false) :
    id.coerce ≠ id := by
  cases id with
  | kInt n => exact fun h => Key.noConfusion h
  | kStr s => simp [Key.isStr] at hid
  | kNone => exact fun h => Key.noConfusion h

/-! Claim theorems. -/

/-- C9: the IP decoder ip_to_string is a pure function (it is defined here
as a plain function of its argument, mirroring the staticmethod with no
state in message_processor.py) mapping 0 to the empty string and
3232235521 to "192.168.0.1" by big-endian dotted-quad decoding. -/
theorem c9_ip_codec :
    ip_to_string 0 = .ok "" ∧ ip_to_string 3232235521 = .ok "192.168.0.1" := by
  exact ⟨rfl, rfl⟩

/-- C8: get_complete_device is idempotent by exhaustion.  For every buffer
whose pending-device dict has no duplicate keys (an invariant of Python
dicts), if a call returns a record then the immediately following call for
the same identity returns none, because the successful call removed the
pending device and its pending IP. -/
theorem c8_take_exhausts (b : Buffer) (id : Key) (dev : DeviceData)
    (hnodup : (b.pending_devices.map Prod.fst).Nodup)
    (h : (get_complete_device b id).1 = some dev) :
    (get_complete_device (get_complete_device b id).2 id).1 = none := by
  simp only [get_complete_device] at h ⊢
  cases hg : dictGet b.pending_devices id.coerce with
  | none => simp [hg] at h
  | some d =>
    by_cases hc : ((d.name != "") && truthyOS d.ip) = true
    · simp [hg, hc, dictGet_dictDel_self b.pending_devices id.coerce hnodup]
    · simp [hg, hc] at h

/-- Witness for C8 at a concrete complete buffer entry. -/
theorem c8_take_exhausts_witness :
    (get_complete_device
      (get_complete_device
        ⟨[(Key.kStr "42",
           { name := "rtr-1", description := "", status := 0,
             ip := some "192.168.1.65", action := some "create" })],
          [(Key.kStr "42", "192.168.1.65")], []⟩ (Key.kInt 42)).2
      (Key.kInt 42)).1 = none := by
  exact c8_take_exhausts _ (Key.kInt 42)
    { name := "rtr-1", description := "", status := 0,
      ip := some "192.168.1.65", action := some "create" }
    (by decide) (by decide)

/-- C10: add_ip_for_device, get_complete_device and remove_device coerce
the identity with str() while add_device stores the key as given, so for a
non-string identity on a fresh buffer the IP is never merged into the
pending entry, get_complete_device returns none, and remove_device leaves
the pending entry in place. -/
theorem c10_key_coercion_mismatch (id : Key) (attrs : DeviceData) (ip : String)
    (hid : id.isStr = false) :
    dictGet ((add_ip_for_device (add_device emptyBuffer id attrs).2 id ip).2).pending_devices id
        = some attrs
      ∧ (get_complete_device (add_ip_for_device (add_device emptyBuffer id attrs).2 id ip).2 id).1
        = none
      ∧ dictGet (remove_device (add_ip_for_device (add_device emptyBuffer id attrs).2 id ip).2 id).pending_devices id
        = some attrs := by
  have hne : id.coerce ≠ id := coerce_ne_of_not_str id hid
  have hne' : ¬ (id = id.coerce) := fun h => hne h.symm
  simp [add_device, add_ip_for_device, get_complete_device, remove_device,
        emptyBuffer, dictGet, dictSet, dictDel, hne']

/-- Witness for C10 at the integer identity 42. -/
theorem c10_key_coercion_mismatch_witness :
    dictGet ((add_ip_for_device
        (add_device emptyBuffer (Key.kInt 42)
          { name := "rtr-1", description := "", status := 0 }).2
        (Key.kInt 42) "1.2.3.4").2).pending_devices (Key.kInt 42)
      = some { name := "rtr-1", description := "", status := 0 }
    ∧ (get_complete_device (add_ip_for_device
        (add_device emptyBuffer (Key.kInt 42)
          { name := "rtr-1", description := "", status := 0 }).2
        (Key.kInt 42) "1.2.3.4").2 (Key.kInt 42)).1 = none
    ∧ dictGet (remove_device (add_ip_for_device
        (add_device emptyBuffer (Key.kInt 42)
          { name := "rtr-1", description := "", status := 0 }).2
        (Key.kInt 42) "1.2.3.4").2 (Key.kInt 42)).pending_devices (Key.kInt 42)
      = some { name := "rtr-1", description := "", status := 0 } := by
  exact c10_key_coercion_mismatch (Key.kInt 42)
    { name := "rtr-1", description := "", status := 0 } "1.2.3.4" rfl

/-! Simulation argument for single-identity call sequences: the buffer
reached from a fresh state is determined by the latest attribute half and
the latest IP half. -/

/-- Abstract view of a single-identity call sequence: the latest addDev
arguments and the latest addIP argument, if any. -/
def AState : Type := Option (String × String × Int) × Option String

/-- Effect of one call on the abstract view. -/
def absApply (a : AState) (op : BufOp) : AState :=
  match op with
  | .addDev n d st => (some (n, d, st), a.2)
  | .addIP ip => (a.1, some ip)

/-- Concretisation of the abstract view as a buffer keyed by the given
identity: the pending entry carries the latest attribute half merged with
the latest IP, and the pending-IP dict carries the latest IP. -/
def concr (id : Key) (a : AState) : Buffer :=
  { pending_devices :=
      match a.1 with
      | some (n, d, st) =>
          [(id, { name := n, description := d, status := st, ip := a.2,
                  action := some "create" })]
      | none => []
    device_ips :=
      match a.2 with
      | some ip => [(id, ip)]
      | none => []
    device_info_cache := [] }

theorem applyOp_concr (s : String) (a : AState) (op : BufOp) :
    applyOp (Key.kStr s) (concr (Key.kStr s) a) op
      = concr (Key.kStr s) (absApply a op) := by
  obtain ⟨dv, ipv⟩ := a
  cases op with
  | addDev n d st =>
    cases dv <;> cases ipv <;>
      simp [applyOp, absApply, concr, add_device, dictGet, dictSet,
            Key.coerce, Key.pyStr]
  | addIP ip =>
    cases dv with
    | none =>
      cases ipv <;>
        simp [applyOp, absApply, concr, add_ip_for_device, dictGet, dictSet,
              Key.coerce, Key.pyStr]
    | some t =>
      obtain ⟨n, d, st⟩ := t
      cases ipv <;>
        simp [applyOp, absApply, concr, add_ip_for_device, dictGet, dictSet,
              Key.coerce, Key.pyStr]

theorem runOps_eq_concr (s : String) (ops : List BufOp) :
    runOps (Key.kStr s) ops
      = concr (Key.kStr s) (ops.foldl absApply (none, none)) := by
  have key : ∀ (l : List BufOp) (a : AState),
      l.foldl (applyOp (Key.kStr s)) (concr (Key.kStr s) a)
        = concr (Key.kStr s) (l.foldl absApply a) := by
    intro l
    induction l with
    | nil => intro a; rfl
    | cons op t ih =>
      intro a
      simp only [List.foldl_cons, applyOp_concr, ih]
  have h0 : concr (Key.kStr s) ((none, none) : AState) = emptyBuffer := rfl
  rw [runOps, ← h0, key]

theorem suppliedName_eq_fst (ops : List BufOp) : ∀ (a : AState),
    ops.foldl (fun acc op => match op with | .addDev n _ _ => some n | _ => acc)
        (a.1.map (fun t => t.1))
      = ((ops.foldl absApply a).1).map (fun t => t.1) := by
  induction ops with
  | nil => intro a; rfl
  | cons op t ih =>
    intro a
    cases op with
    | addDev n d st =>
      simpa using ih (absApply a (.addDev n d st))
    | addIP ip =>
      simpa using ih (absApply a (.addIP ip))

theorem suppliedIP_eq_snd (ops : List BufOp) : ∀ (a : AState),
    ops.foldl (fun acc op => match op with | .addIP ip => some ip | _ => acc) a.2
      = (ops.foldl absApply a).2 := by
  induction ops with
  | nil => intro a; rfl
  | cons op t ih =>
    intro a
    cases op with
    | addDev n d st =>
      simpa using ih (absApply a (.addDev n d st))
    | addIP ip =>
      simpa using ih (absApply a (.addIP ip))

/-- C2 (amended to string identities): for every sequence of add_device /
add_ip_for_device calls on a fresh buffer for one string identity,
get_complete_device returns a record iff the most recently supplied name
and the most recently supplied IP are both non-empty, regardless of
arrival order. -/
theorem c2_complete_iff_supplied (s : String) (ops : List BufOp) :
    ((get_complete_device (runOps (Key.kStr s) ops) (Key.kStr s)).1).isSome
      = (truthyOS (suppliedName ops) && truthyOS (suppliedIP ops)) := by
  rw [runOps_eq_concr]
  have hn : suppliedName ops
      = ((ops.foldl absApply ((none, none) : AState)).1).map (fun t => t.1) := by
    simpa [suppliedName] using suppliedName_eq_fst ops ((none, none) : AState)
  have hi : suppliedIP ops = (ops.foldl absApply ((none, none) : AState)).2 := by
    simpa [suppliedIP] using suppliedIP_eq_snd ops ((none, none) : AState)
  rw [hn, hi]
  obtain ⟨dv, ipv⟩ := ops.foldl absApply ((none, none) : AState)
  cases dv with
  | none => simp [concr, get_complete_device, dictGet, truthyOS, Key.coerce, Key.pyStr]
  | some t =>
    obtain ⟨n, d, st⟩ := t
    cases ipv with
    | none =>
      simp [concr, get_complete_device, dictGet, truthyOS, Key.coerce, Key.pyStr]
    | some ip =>
      by_cases hc : ((n != "") && (ip != "")) = true
      · simp [concr, get_complete_device, dictGet, truthyOS,
              Key.coerce, Key.pyStr, hc]
      · simp [concr, get_complete_device, dictGet, truthyOS,
              Key.coerce, Key.pyStr, hc]

/-- C2 counterexample for the claim as stated over arbitrary identities:
on the integer identity 42 (the type actually supplied by the JSON
payloads), a non-empty name and a non-empty IP have both been supplied,
yet get_complete_device returns none, because add_device stored the entry
under the int key while the other operations look up its str() form. -/
theorem c2_counterexample :
    suppliedName [BufOp.addDev "rtr-1" "" 0, BufOp.addIP "192.168.1.65"]
        = some "rtr-1"
      ∧ suppliedIP [BufOp.addDev "rtr-1" "" 0, BufOp.addIP "192.168.1.65"]
        = some "192.168.1.65"
      ∧ (get_complete_device
          (runOps (Key.kInt 42) [BufOp.addDev "rtr-1" "" 0, BufOp.addIP "192.168.1.65"])
          (Key.kInt 42)).1 = none := by
  refine ⟨rfl, rfl, ?_⟩
  rfl

/-! Persistence round-trip facts. -/

theorem dictSet_eq_append {β : Type} (l : List (Key × β)) (k : Key) (v : β)
    (h : k ∉ l.map Prod.fst) : dictSet l k v = l ++ [(k, v)] := by
  induction l with
  | nil => rfl
  | cons p t ih =>
    simp only [List.map_cons, List.mem_cons] at h
    push_neg at h
    simp only [dictSet]
    rw [if_neg (fun he => h.1 he.symm), ih h.2]
    rfl

theorem jsonLoadObj_aux :
    ∀ (l acc : List (Key × DeviceData)),
      (l.map Prod.fst).Nodup →
      (∀ k ∈ l.map Prod.fst, k ∉ acc.map Prod.fst) →
      l.foldl (fun acc kv => dictSet acc kv.1 kv.2) acc = acc ++ l := by
  intro l
  induction l with
  | nil => intro acc _ _; simp
  | cons p t ih =>
    intro acc hnodup hdisj
    simp only [List.map_cons, List.nodup_cons] at hnodup
    simp only [List.foldl_cons]
    rw [dictSet_eq_append acc p.1 p.2
          (hdisj p.1 (by simp))]
    rw [ih (acc ++ [(p.1, p.2)]) hnodup.2 ?_]
    · simp
    · intro k hk
      simp only [List.map_append, List.mem_append, List.map_cons]
      push_neg
      constructor
      · exact hdisj k (by simp [hk])
      · simp only [List.map_nil, List.mem_singleton]
        intro he
        exact hnodup.1 (he ▸ hk)

/-- json.dump key stringification is the identity on string-keyed dicts. -/
theorem map_jsonStr_id (l : List (Key × DeviceData))
    (hkeys : ∀ k ∈ l.map Prod.fst, k.isStr = true) :
    l.map (fun kv => (Key.kStr kv.1.jsonStr, kv.2)) = l := by
  induction l with
  | nil => rfl
  | cons p t ih =>
    obtain ⟨k, v⟩ := p
    have hk : k.isStr = true := hkeys k (by simp)
    have ht := ih (fun k2 hk2 => hkeys k2 (by simp [hk2]))
    simp only [List.map_cons, ht]
    cases k with
    | kStr s => rfl
    | kInt n => simp [Key.isStr] at hk
    | kNone => simp [Key.isStr] at hk

/-- The first component of get_complete_device depends only on the
pending-device dict. -/
theorem get_complete_fst_congr (b1 b2 : Buffer) (id : Key)
    (h : b1.pending_devices = b2.pending_devices) :
    (get_complete_device b1 id).1 = (get_complete_device b2 id).1 := by
  simp only [get_complete_device, h]
  cases dictGet b2.pending_devices id.coerce with
  | none => rfl
  | some d =>
    by_cases hc : ((d.name != "") && truthyOS d.ip) = true <;> simp [hc]

/-- C3 (amended): save_state followed by load_state preserves only the
pending-device dict (exactly, when its keys are already strings and have
no duplicates); the pending-IP dict and the device-info cache are reset to
empty because save_state writes only the pending_devices key.  Since
completeness is a function of the pending-device dict alone, every
identity still yields the same completeness result. -/
theorem c3_roundtrip_amended (b : Buffer)
    (hkeys : ∀ k ∈ b.pending_devices.map Prod.fst, k.isStr = true)
    (hnodup : (b.pending_devices.map Prod.fst).Nodup) :
    load_state (save_state b) = ⟨b.pending_devices, [], []⟩
      ∧ ∀ id : Key,
          (get_complete_device (load_state (save_state b)) id).1
            = (get_complete_device b id).1 := by
  have hmap : b.pending_devices.map (fun kv => (Key.kStr kv.1.jsonStr, kv.2))
      = b.pending_devices := map_jsonStr_id b.pending_devices hkeys
  have hload : load_state (save_state b) = ⟨b.pending_devices, [], []⟩ := by
    simp only [load_state, save_state, hmap, jsonLoadObj]
    rw [jsonLoadObj_aux b.pending_devices [] hnodup (by simp)]
    rfl
  refine ⟨hload, fun id => ?_⟩
  exact get_complete_fst_congr _ b id (by rw [hload])

/-- Witness for C3 (amended) at a concrete one-entry buffer. -/
theorem c3_roundtrip_amended_witness :
    load_state (save_state
        ⟨[(Key.kStr "42",
           { name := "rtr-1", description := "", status := 0,
             ip := some "192.168.1.65", action := some "create" })], [], []⟩)
      = ⟨[(Key.kStr "42",
           { name := "rtr-1", description := "", status := 0,
             ip := some "192.168.1.65", action := some "create" })], [], []⟩
    ∧ ∀ id : Key,
        (get_complete_device (load_state (save_state
          ⟨[(Key.kStr "42",
             { name := "rtr-1", description := "", status := 0,
               ip := some "192.168.1.65", action := some "create" })], [], []⟩)) id).1
          = (get_complete_device
              ⟨[(Key.kStr "42",
                 { name := "rtr-1", description := "", status := 0,
                   ip := some "192.168.1.65", action := some "create" })], [], []⟩ id).1 := by
  exact c3_roundtrip_amended _ (by decide) (by decide)

/-- C3 counterexample: the round trip does not reproduce the buffer, since
the pending-IP dict (and likewise the info cache) is not persisted - a
buffer holding one orphaned pending IP comes back empty. -/
theorem c3_counterexample :
    load_state (save_state ⟨[], [(Key.kStr "7", "1.2.3.4")], []⟩)
        ≠ ⟨[], [(Key.kStr "7", "1.2.3.4")], []⟩ := by
  decide

/-! Pipeline-level facts.  In the current code no handler path can return
a sync instruction: the two create-emitting branches call the undefined
cache_device_info first and raise. -/

theorem process_netdevice_no_emit (api : Api) (b : Buffer) (a : Option String)
    (p : Payload) (pv : Option Payload) (x : HostData) :
    (process_netdevice api b a p pv).result ≠ .ok (some x) := by
  unfold process_netdevice
  simp only [cache_device_info]
  repeat' split
  all_goals
    first
      | exact fun h => Except.noConfusion h
      | exact fun h => Option.noConfusion (Except.ok.inj h)

theorem process_node_no_emit (api : Api) (b : Buffer) (a : Option String)
    (p : Payload) (pv : Option Payload) (x : HostData) :
    (process_node api b a p pv).result ≠ .ok (some x) := by
  unfold process_node
  simp only [cache_device_info, restore_device_to_pending]
  repeat' split
  all_goals
    first
      | exact fun h => Except.noConfusion h
      | exact fun h => Option.noConfusion (Except.ok.inj h)

theorem handlerWrap_instr (h : HandlerOut)
    (hne : ∀ x, h.result ≠ .ok (some x)) :
    (handlerWrap h).instr = none := by
  unfold handlerWrap
  cases hr : h.result with
  | error e => rfl
  | ok r =>
    cases r with
    | none => rfl
    | some x => exact absurd hr (hne x)

theorem parse_no_instr (api : Api) (b : Buffer) (pin : ParseIn) :
    (parse_lms_message api b pin).instr = none := by
  cases pin with
  | badJson => rfl
  | msg m =>
    simp only [parse_lms_message]
    split
    · exact handlerWrap_instr _
        (fun x => process_netdevice_no_emit api b m.action m.payload m.payloadPrevious x)
    · split
      · exact handlerWrap_instr _
          (fun x => process_node_no_emit api b m.action m.payload m.payloadPrevious x)
      · rfl

theorem process_message_ok (api : Api) (b : Buffer) (pin : ParseIn) :
    (process_message api b pin).ok = true := by
  simp only [process_message, parse_no_instr api b pin]

/-! Concrete scenario inputs. -/

/-- A response oracle whose lookups all miss and whose mutations all fail. -/
def apiNone : Api :=
  ⟨fun _ => none, fun _ => none, fun _ => false, fun _ => false, fun _ => none⟩

/-- The attribute INSERT of the spec scenario: device 42, name "#rtr-1". -/
def attrInsert42 : LMSMsg :=
  { action := some "INSERT", table := some "netdevices",
    payload := { id := some 42, name := some "#rtr-1",
                 description := some "", status := some 0 } }

/-- The node INSERT of the spec scenario: netdev 42, address 3232235777. -/
def nodeInsert42 : LMSMsg :=
  { action := some "INSERT", table := some "nodes",
    payload := { id := some 7, ipaddr := some 3232235777, netdev := some 42 } }

/-- Buffer state after the attribute INSERT of the scenario. -/
def pend42 : Buffer :=
  ⟨[(Key.kInt 42,
     { name := "rtr-1", description := "", status := 0,
       action := some "create" })], [], []⟩

/-- C1 (code evaluated at the failing input): in the spec scenario the
attribute INSERT buffers the device under the int key 42, and the
completing node INSERT stores its IP under the str key "42", so the join
never completes and no create instruction is returned for either event;
had the pending entry been string-keyed instead, the emit path would still
raise AttributeError on the undefined cache_device_info. -/
theorem c1_create_never_emitted (api : Api) :
    parse_lms_message api emptyBuffer (.msg attrInsert42)
      = ⟨none, pend42, [], []⟩
    ∧ parse_lms_message api pend42 (.msg nodeInsert42)
      = ⟨none,
         ⟨[(Key.kInt 42,
            { name := "rtr-1", description := "", status := 0,
              action := some "create" })],
          [(Key.kStr "42", "192.168.1.1")], []⟩, [], []⟩ :=
  ⟨rfl, rfl⟩

/-- Inventory oracle for the node DELETE scenario: host lookup by IP
succeeds and deletion succeeds. -/
def apiDel : Api :=
  ⟨fun _ => none, fun _ => some ⟨"rtr-1"⟩, fun _ => false, fun _ => true,
   fun _ => none⟩

/-- A buffer holding a cached complete snapshot for device 42. -/
def bufCache42 : Buffer :=
  ⟨[], [],
   [(Key.kInt 42,
     { name := "rtr-1", description := "core", status := 0,
       ip := some "192.168.0.1", action := some "create" })]⟩

/-- C4 (code evaluated at the failing input): on a node DELETE whose IP
resolves to a sink host, the delete call is made, but
restore_device_to_pending is then invoked with the integer netdev id and
raises AttributeError, so the buffer is left unchanged - no pending entry
is rebuilt from the DeviceInfoCache snapshot (which the method would not
read even if reached: it reads its host argument). -/
theorem c4_restore_crashes :
    process_node apiDel bufCache42 (some "DELETE")
        { id := some 7, ipaddr := some 3232235521, netdev := some 42 } none
      = { result := .error .attributeError, buf := bufCache42,
          calls := [.getByIp "192.168.0.1", .delete "rtr-1"] }
    ∧ (message_callback apiDel bufCache42
        (.content (.msg { action := some "DELETE", table := some "nodes",
                          payload := { id := some 7, ipaddr := some 3232235521,
                                       netdev := some 42 } }))).buf
      = bufCache42 :=
  ⟨rfl, rfl⟩

/-- C5 (code evaluated at the failing input): the attribute INSERT mutates
the buffer, yet no save_state call happens anywhere in the handling path -
message_processor.py never invokes save_state, so the saves trace stays
empty and the durable snapshot is not rewritten. -/
theorem c5_no_persistence (api : Api) :
    (parse_lms_message api emptyBuffer (.msg attrInsert42)).buf = pend42
    ∧ pend42 ≠ emptyBuffer
    ∧ (parse_lms_message api emptyBuffer (.msg attrInsert42)).saves = [] :=
  ⟨rfl, by decide, rfl⟩

/-- A buffer holding a pending (not yet synced) device named old-name. -/
def bufPendingOld : Buffer :=
  ⟨[(Key.kInt 42,
     { name := "old-name", description := "d", status := 0,
       action := some "create" })], [], []⟩

/-- C6 counterexample: a netdevice UPDATE whose previous name misses in
the sink while a pending entry with exactly that name exists; the handler
leaves the buffer unchanged (the pending entry keeps its old fields) and
performs no scan, contradicting the claimed in-place update. -/
theorem c6_counterexample :
    process_netdevice apiNone bufPendingOld (some "UPDATE")
        { id := some 42, name := some "#new-name", description := some "nd",
          status := some 1 }
        (some { name := some "#old-name" })
      = { result := .ok none, buf := bufPendingOld,
          calls := [.getByName "old-name"] }
    ∧ dictGet bufPendingOld.pending_devices (Key.kInt 42)
      = some { name := "old-name", description := "d", status := 0,
               action := some "create" } :=
  ⟨rfl, rfl⟩

/-- C6 (amended): on a netdevice UPDATE whose previous (marker-stripped)
name is not found in the sink, the handler only logs: it emits no
instruction, makes no sink call beyond the name lookup, and leaves the
buffer - in particular every pending entry - unchanged; no scan of the
pending devices exists in the code. -/
theorem c6_update_miss_noop (api : Api) (b : Buffer) (p pv : Payload)
    (h : api.get_host_by_name (lstripHash (pv.name.getD "")) = none) :
    process_netdevice api b (some "UPDATE") p (some pv)
      = { result := .ok none, buf := b,
          calls := [.getByName (lstripHash (pv.name.getD ""))] } := by
  unfold process_netdevice
  simp [h]

/-- Witness for C6 (amended) at a concrete miss. -/
theorem c6_update_miss_noop_witness :
    process_netdevice apiNone bufPendingOld (some "UPDATE")
        { id := some 42, name := some "#new-name", description := some "nd",
          status := some 1 }
        (some { name := some "#gone" })
      = { result := .ok none, buf := bufPendingOld,
          calls := [.getByName "gone"] } := by
  exact c6_update_miss_noop apiNone bufPendingOld
    { id := some 42, name := some "#new-name", description := some "nd",
      status := some 1 }
    { name := some "#gone" } rfl

/-- Oracle for the C7 counterexample: the host lookup by IP succeeds but
the host update (an outward sink call) fails. -/
def apiUpdFail : Api :=
  ⟨fun _ => none, fun _ => some ⟨"h1"⟩, fun _ => false, fun _ => false,
   fun _ => none⟩

/-- A node UPDATE moving device 42 from 192.168.0.1 to 192.168.1.65. -/
def nodeUpdate42 : LMSMsg :=
  { action := some "UPDATE", table := some "nodes",
    payload := { id := some 7, ipaddr := some 3232235777, netdev := some 42 },
    payloadPrevious := some { ipaddr := some 3232235521 } }

/-- C7 counterexample: an outward sink call (the host update made inside
the node UPDATE handler) fails, yet the delivery is accepted, not
rejected-and-redelivered - refuting the claimed "rejected iff a sink call
fails" in the only-if direction. -/
theorem c7_counterexample :
    (message_callback apiUpdFail emptyBuffer (.content (.msg nodeUpdate42))).ack
      = Ack.ack
    ∧ (message_callback apiUpdFail emptyBuffer (.content (.msg nodeUpdate42))).calls
      = [.getByIp "192.168.0.1",
         .update { host := some "h1", ip := some "192.168.1.1" }]
    ∧ apiUpdFail.update_host { host := some "h1", ip := some "192.168.1.1" }
      = false :=
  ⟨rfl, rfl, rfl⟩

/-- C7 (amended): in the current code a delivery is rejected-and-
redelivered exactly when the body fails UTF-8 decoding; every decodable
envelope is accepted, whatever the oracle answers - sink-call failures
inside the handlers are swallowed, and the dispatcher-level sink call
(the only one whose failure would be rejected) is unreachable because no
handler path returns an instruction. -/
theorem c7_accept_characterization (api : Api) (b : Buffer) (body : Body) :
    (message_callback api b body).ack
      = (match body with
         | .badUtf8 => Ack.nack
         | .content _ => Ack.ack) := by
  cases body with
  | badUtf8 => rfl
  | content pin =>
    simp only [message_callback, process_message_ok, if_true]

end LmsZabbixSync
